import Mathlib

/-!
Verification development for the PDF-to-quiz pipeline client
(`src/client/src`: `queue_client.py`, `producer.py`, `worker.py`,
`aggregator.py`).

Each Python module is shallowly embedded as executable Lean definitions:

* `QueueClientM` models `QueueClient.dequeue_task` and its error taxonomy
  (`QueueNotFoundError`, `InvalidRequestError`, `QueueClientError`).
* `ProducerM` models `PDFProducer.process_pdf` / `_save_metadata`: the task
  fan-out over pages, the priority assignment, the metadata manifest, and the
  returned value.
* `WorkerM` models `QuizWorker._process_task`: parameter decoding and
  validation, the retry loop with linear backoff, and result submission.
* `AggregatorM` models `QuizAggregator._wait_for_completion` (polling with
  exponential backoff), `_collect_all_results`, `_load_questions_from_result`,
  `_generate_anki_csv`, and `_generate_statistics`.

External effects (HTTP calls, sleeps, the filesystem) are made explicit:
HTTP interactions become response values passed in, the sequence of poll
outcomes becomes a list of events, sleeps are recorded as a list of delays
(rational numbers standing for the float durations), and file stores become
functions from paths to file contents.
-/

namespace QueueClientM

/-- Error taxonomy of `queue_client.py`: `QueueNotFoundError` (HTTP 404),
`InvalidRequestError` (HTTP 400), and the base `QueueClientError` used for
transport failures, timeouts and unexpected HTTP statuses. -/
inductive QueueError
  | notFound
  | invalidRequest
  | transient
  deriving DecidableEq, Repr

/-- Outcome of the HTTP request issued by `dequeue_task`: either a response
with a status code and a parsed JSON body, or a `requests.RequestException`
(connection failure / timeout). -/
inductive HttpOutcome (α : Type)
  | response (code : Nat) (body : α)
  | transportFailure
  deriving DecidableEq, Repr

/-- `QueueClient.dequeue_task` (queue_client.py, lines 117-134): 204 means an
empty queue and returns `None`; 404 raises `QueueNotFoundError`; 400 raises
`InvalidRequestError`; any other status of at least 400 makes
`raise_for_status` raise a `requests` exception which is wrapped into the base
`QueueClientError`; a transport failure is likewise wrapped; any remaining
(successful) response returns the parsed task body. -/
def dequeue_task {α : Type} (resp : HttpOutcome α) : Except QueueError (Option α) :=
  match resp with
  | .transportFailure => .error .transient
  | .response code body =>
    if code = 204 then .ok none
    else if code = 404 then .error .notFound
    else if code = 400 then .error .invalidRequest
    else if 400 ≤ code then .error .transient
    else .ok (some body)

end QueueClientM

namespace ProducerM

/-- The manifest written by `PDFProducer._save_metadata` (producer.py,
lines 150-186).  The field the spec calls `job_id` is `pdf_id` (the manifest
file is named `{pdf_id}_metadata.json`), and the field the spec calls
`total_units` is `total_pages`. -/
structure Metadata where
  pdf_id : String
  queue_id : String
  pdf_name : String
  total_pages : Nat
  task_ids : List String
  deriving DecidableEq, Repr

/-- One `enqueue_task` call made by `PDFProducer.process_pdf` step 5:
the parameter payload and the priority passed for one page. -/
structure EnqueueCall where
  pdf_id : String
  page_num : Nat
  page_path : String
  pdf_name : String
  priority : Nat
  deriving DecidableEq, Repr

/-- The sequence of `enqueue_task` calls issued by `process_pdf`
(producer.py, lines 108-129): pages are enumerated starting at 1 and the
task for page `i` is submitted with `priority = i`. -/
def enqueueCalls (pdf_id pdf_name : String) (image_paths : List String) : List EnqueueCall :=
  (image_paths.enum).map fun ip =>
    { pdf_id := pdf_id
      page_num := ip.1 + 1
      page_path := ip.2
      pdf_name := pdf_name
      priority := ip.1 + 1 }

/-- `PDFProducer._save_metadata`: records exactly the values passed in. -/
def save_metadata (pdf_id queue_id : String) (task_ids : List String)
    (total_pages : Nat) (pdf_name : String) : Metadata :=
  { pdf_id := pdf_id
    queue_id := queue_id
    pdf_name := pdf_name
    total_pages := total_pages
    task_ids := task_ids }

/-- `PDFProducer.process_pdf` steps 5-7 (producer.py, lines 104-148),
after the queue was created and the pages extracted.  `accept page_num` is
the outcome of the `enqueue_task` call for that page: `some task_id` if the
queue service accepted it, `none` if the submission raised and the page was
skipped with a warning.  The manifest records `total_pages` (the scanned
page count) and only the accepted task ids; the function returns the
`queue_id`, exactly as `process_pdf` does (step 7: `return queue_id`). -/
def process_pdf (pdf_id queue_id pdf_name : String) (image_paths : List String)
    (total_pages : Nat) (accept : Nat → Option String) : Metadata × String :=
  let task_ids := (enqueueCalls pdf_id pdf_name image_paths).filterMap
    fun c => accept c.page_num
  (save_metadata pdf_id queue_id task_ids total_pages pdf_name, queue_id)

end ProducerM

namespace WorkerM

/-- A Python value sitting in a field of the decoded params object, as far
as worker.py inspects it: absent key (`.get` returns `None`), an explicit
`None`, a string, an `int` (a Python `bool` is an `int` for `isinstance`
and is modelled as its 0/1 value), or any other value carrying only its
truthiness. -/
inductive PyVal
  | absent
  | noneVal
  | str (s : String)
  | intVal (n : Int)
  | other (truthy : Bool)
  deriving DecidableEq, Repr

/-- Python truthiness of a field value: `None` and absent keys are falsy,
a string is truthy iff non-empty, an int iff non-zero, anything else
carries its own truthiness. -/
def pyTruthy : PyVal → Bool
  | .absent => false
  | .noneVal => false
  | .str s => s ≠ ""
  | .intVal n => n ≠ 0
  | .other t => t

/-- The `isinstance(page_num, int)` test of worker.py line 156. -/
def pyIsInt : PyVal → Bool
  | .intVal _ => true
  | _ => false

/-- The decoded params object as `QuizWorker._process_task` reads it
(worker.py, lines 152-154): the three fields fetched with `.get`, each an
arbitrary Python value. -/
structure TaskParams where
  pdf_id : PyVal
  page_num : PyVal
  page_path : PyVal
  deriving DecidableEq, Repr

/-- The content of the `params` string of a dequeued task, after the
`json.loads` attempt (worker.py, lines 139-150): it fails to decode
(`json.JSONDecodeError`, the only exception caught); or it decodes to a
valid JSON value that is not an object, in which case the later
`params.get("pdf_id")` raises an uncaught `AttributeError`; or it decodes
to an object. -/
inductive ParamsField
  | undecodable
  | decodedNonObject
  | decoded (p : TaskParams)
  deriving DecidableEq, Repr

/-- A dequeued task as `_process_task` receives it: `task.get("id")` and
`task.get("params")`, each possibly absent. -/
structure RawTask where
  id : Option String
  params : Option ParamsField
  deriving DecidableEq, Repr

/-- Python truthiness of an optional string: `None` and `""` are falsy. -/
def truthyStr : Option String → Bool
  | none => false
  | some s => s ≠ ""

/-- The required-parameter check of worker.py line 156:
`pdf_id and isinstance(page_num, int) and page_path` — truthiness for
`pdf_id` and `page_path` (no type check), an `isinstance` type check for
`page_num`. -/
def hasRequiredParams (p : TaskParams) : Bool :=
  pyTruthy p.pdf_id && pyIsInt p.page_num && pyTruthy p.page_path

/-- Observable outcome of one iteration of the processing loop of
`_process_task` (worker.py, lines 179-236): the whole `try` body succeeded
(generation, saving and `submit_result`); or it raised an
`LLMServiceError` / `FileNotFoundError` (content-level error); or
`submit_result` raised a `QueueClientError` (transient queue-service
error); or some unexpected exception escaped. -/
inductive AttemptOutcome
  | succeeded
  | contentError (msg : String)
  | queueError (msg : String)
  | unexpectedError (msg : String)
  deriving DecidableEq, Repr

/-- What the worker ends up submitting for a task. -/
inductive SubmittedResult
  | successResult
  | failureResult (msg : String)
  deriving DecidableEq, Repr

/-- Trace of one `_process_task` call: what was submitted (or `none` when
the method returned without submitting anything), the sleeps performed
(`retry_backoff * attempt`, as rationals), and how many times the
generation step (`generate_quiz_from_image`) was entered. -/
structure ProcessTrace where
  submitted : Option SubmittedResult
  sleeps : List ℚ
  generationRuns : Nat
  deriving DecidableEq, Repr

/-- The retry loop of `_process_task` (worker.py, lines 178-236).
`outcomes` is the stream of per-iteration outcomes, `attempt` the Python
`attempt` counter before the `attempt += 1` at the top of the loop body,
`sleeps` and `runs` the trace accumulated so far.  A `queueError` at
attempt `a` retries after sleeping `retry_backoff * a` unless
`a > max_retries`, in which case a FAILURE result carrying the last
transport error is submitted. -/
def retryLoop (max_retries : Nat) (retry_backoff : ℚ) :
    List AttemptOutcome → Nat → List ℚ → Nat → ProcessTrace
  | [], _, sleeps, runs => ⟨none, sleeps, runs⟩
  | o :: rest, attempt, sleeps, runs =>
    let a := attempt + 1
    match o with
    | .succeeded => ⟨some .successResult, sleeps, runs + 1⟩
    | .contentError m => ⟨some (.failureResult m), sleeps, runs + 1⟩
    | .unexpectedError m =>
      ⟨some (.failureResult ("Unexpected worker error: " ++ m)), sleeps, runs + 1⟩
    | .queueError m =>
      if max_retries < a then
        ⟨some (.failureResult ("Failed to submit result: " ++ m)), sleeps, runs + 1⟩
      else
        retryLoop max_retries retry_backoff rest a
          (sleeps ++ [retry_backoff * (a : ℚ)]) (runs + 1)

/-- How one `_process_task` call ends: it returns (with the trace of what
it did), or an uncaught exception escapes it and crashes the worker
process (the `except KeyboardInterrupt` in `run` and the handlers in
`main` do not resume the loop). -/
inductive ProcessResult
  | finished (t : ProcessTrace)
  | crash
  deriving DecidableEq, Repr

/-- `QuizWorker._process_task` (worker.py, lines 117-236).  First the guard
`if not task_id or raw_params is None: return` (nothing submitted), then the
`json.loads` attempt: a decode failure submits a FAILURE with message
`"Invalid task params JSON"`; a params string holding valid JSON that is
not an object makes `params.get("pdf_id")` (line 152) raise an uncaught
`AttributeError` — no FAILURE is submitted and the worker crashes.  For a
decoded object, a failed required-field check submits a FAILURE with
message `"Missing required task parameters"`; otherwise the processing
loop with the generation step runs. -/
def process_task (max_retries : Nat) (retry_backoff : ℚ) (t : RawTask)
    (outcomes : List AttemptOutcome) : ProcessResult :=
  if !truthyStr t.id || t.params.isNone then .finished ⟨none, [], 0⟩
  else
    match t.params with
    | none => .finished ⟨none, [], 0⟩
    | some .undecodable =>
      .finished ⟨some (.failureResult "Invalid task params JSON"), [], 0⟩
    | some .decodedNonObject => .crash
    | some (.decoded p) =>
      if !hasRequiredParams p then
        .finished ⟨some (.failureResult "Missing required task parameters"), [], 0⟩
      else
        .finished (retryLoop max_retries retry_backoff outcomes 0 [] 0)

end WorkerM

namespace AggregatorM

/-- A queue status snapshot as returned by `get_queue_status` and read by
`_wait_for_completion` (aggregator.py, lines 216-218): the three fields are
fetched with `.get`, so each may be absent. -/
structure QueueStatus where
  pendingTaskCount : Option Int
  completedResultCount : Option Int
  hasPendingTasks : Option Bool
  deriving DecidableEq, Repr

/-- Outcome of one `get_queue_status` call inside the wait loop
(aggregator.py, lines 199-214): the queue was not found
(`QueueNotFoundError`, re-raised as a fatal `QueueClientError`), a
transient `QueueClientError` occurred (logged and retried), or a status
snapshot came back. -/
inductive PollEvent
  | queueMissing
  | transientFailure
  | snapshot (s : QueueStatus)
  deriving DecidableEq, Repr

/-- How the wait loop ended. -/
inductive WaitResult
  | completed
  | aborted
  | ranOut
  deriving DecidableEq, Repr

/-- The completion test of aggregator.py line 228:
`pending == 0 and completed == expected_count`.  The values come from
`.get`, so an absent field (Python `None`) never equals `0` or the expected
count. -/
def isCompleteStatus (s : QueueStatus) (expected : Int) : Bool :=
  s.pendingTaskCount == some 0 && s.completedResultCount == some expected

/-- The polling loop of `QuizAggregator._wait_for_completion`
(aggregator.py, lines 189-233), driven by the list of poll outcomes.
Returns how the loop ended together with the list of sleeps it performed;
`backoff` is the current delay, updated to `min(max_backoff, backoff * 2)`
after every sleep.  A `queueMissing` event raises (aborts with no further
sleep); a transient failure sleeps the current backoff and retries; a
snapshot either satisfies the completion test and breaks, or sleeps the
current backoff and polls again. -/
def waitLoop (expected : Int) (max_backoff : ℚ) :
    List PollEvent → ℚ → WaitResult × List ℚ
  | [], _ => (.ranOut, [])
  | e :: rest, backoff =>
    match e with
    | .queueMissing => (.aborted, [])
    | .transientFailure =>
      let r := waitLoop expected max_backoff rest (min max_backoff (backoff * 2))
      (r.1, backoff :: r.2)
    | .snapshot s =>
      if isCompleteStatus s expected then (.completed, [])
      else
        let r := waitLoop expected max_backoff rest (min max_backoff (backoff * 2))
        (r.1, backoff :: r.2)

/-- `_wait_for_completion` proper: the loop started with `backoff = 1.0`
and `max_backoff = 30.0` (aggregator.py, lines 189-190). -/
def wait_for_completion (expected : Int) (events : List PollEvent) : WaitResult × List ℚ :=
  waitLoop expected 30 events 1

/-- The expected result count used by `aggregate` (aggregator.py,
lines 91-92): `expected_count = len(metadata["task_ids"])`. -/
def expectedCount (task_ids : List String) : Int :=
  task_ids.length

/-- A result record as returned by `get_result`: `_load_questions_from_result`
reads `result.get("output")`; the `status` field distinguishes SUCCESS from
FAILURE results. -/
structure ResultRecord where
  status : String
  output : Option String
  deriving DecidableEq, Repr

/-- Outcome of the `get_result` call for one task id inside
`_collect_all_results` (aggregator.py, lines 245-263): the call raised a
`QueueClientError` (logged, skipped), returned a falsy/absent result
(logged, skipped), or returned a result record. -/
inductive FetchOutcome
  | fetchFailed
  | absent
  | found (r : ResultRecord)
  deriving DecidableEq, Repr

/-- `QuizAggregator._collect_all_results` (aggregator.py, lines 235-265):
iterate the manifest's task ids in order and keep the records that were
successfully fetched. -/
def collect_all_results (fetch : String → FetchOutcome) (task_ids : List String) :
    List ResultRecord :=
  task_ids.filterMap fun t =>
    match fetch t with
    | .found r => some r
    | _ => none

/-- One object entry of the `questions` array of a worker result file, as
read by `_load_questions_from_result`: a field is `some s` when it holds a
string (the `isinstance(question, str)` checks), `none` when it is absent
or of another type. -/
structure RawItem where
  question : Option String
  answer : Option String
  deriving DecidableEq, Repr

/-- One entry of the `questions` array: either a JSON object, or some other
JSON value, in which case `item.get("question")` (aggregator.py, line 314)
raises an uncaught `AttributeError` and aborts the aggregation run. -/
inductive ItemVal
  | nonDict
  | obj (it : RawItem)
  deriving DecidableEq, Repr

/-- The `questions` field of a result payload (aggregator.py, lines
303-306): `payload.get("questions") or []` maps an absent, null or falsy
value to the empty list; a present truthy non-list value is rejected with
a warning; a list is iterated entry by entry. -/
inductive QuestionsField
  | absent
  | invalid
  | items (l : List ItemVal)
  deriving DecidableEq, Repr

/-- A worker result payload parsed to a JSON object: `pdf_id`, `page_num`
(as the worker writes them) and the `questions` field. -/
structure Payload where
  pdf_id : Option String
  page_num : Option Int
  questions : QuestionsField
  deriving DecidableEq, Repr

/-- What the filesystem holds at a referenced output path: no file at all;
a file that fails to read or parse (`OSError` / `json.JSONDecodeError`,
both caught at aggregator.py lines 296-301); a file whose JSON parses to a
value that is not an object, in which case `payload.get("questions")`
(line 303) raises an uncaught `AttributeError` and aborts the run; or a
parsed object payload. -/
inductive StoredFile
  | missing
  | unreadable
  | nonObject
  | content (p : Payload)
  deriving DecidableEq, Repr

/-- A normalized question row as built by `_load_questions_from_result` and
written by `_generate_anki_csv`. -/
structure MergedRow where
  question : String
  answer : String
  tag : String
  deriving DecidableEq, Repr

/-- The tag computation of aggregator.py line 310:
`f"{pdf_id}_page_{page_num}" if pdf_id and page_num is not None else ""`. -/
def tagOf (p : Payload) : String :=
  match p.pdf_id, p.page_num with
  | some s, some n => if s = "" then "" else s ++ "_page_" ++ toString n
  | _, _ => ""

/-- The normalization loop of aggregator.py lines 312-325: keep exactly the
object items whose `question` and `answer` are both strings, attaching the
payload tag; an entry that is not an object raises an uncaught
`AttributeError` at `item.get("question")`, aborting the whole run
(`.error ()`). -/
def normalizeItems (tag : String) : List ItemVal → Except Unit (List MergedRow)
  | [] => .ok []
  | .nonDict :: _ => .error ()
  | .obj it :: rest =>
    match normalizeItems tag rest with
    | .error e => .error e
    | .ok tl =>
      match it.question, it.answer with
      | some q, some a => .ok (⟨q, a, tag⟩ :: tl)
      | _, _ => .ok tl

/-- `QuizAggregator._load_questions_from_result` (aggregator.py, lines
267-325), with the filesystem passed in as `fs`.  The guarded failure
paths (absent or falsy `output` field, missing file, unreadable file,
absent or invalid `questions` field) return the empty list; a payload file
parsing to a non-object value, or a non-object `questions` entry, raises
an uncaught `AttributeError` (`.error ()`).  The record's `status` is
never consulted. -/
def load_questions_from_result (fs : String → StoredFile) (r : ResultRecord) :
    Except Unit (List MergedRow) :=
  match r.output with
  | none => .ok []
  | some path =>
    if path = "" then .ok []
    else
      match fs path with
      | .missing => .ok []
      | .unreadable => .ok []
      | .nonObject => .error ()
      | .content p =>
        match p.questions with
        | .absent => .ok []
        | .invalid => .ok []
        | .items l => normalizeItems (tagOf p) l

/-- The result-folding loop of `QuizAggregator.aggregate` step 3
(aggregator.py, lines 108-111): load each collected record in order and
extend the accumulated question list; an exception raised while loading
any record propagates out of `aggregate` and aborts the run. -/
def mergeAll (fs : String → StoredFile) : List ResultRecord → Except Unit (List MergedRow)
  | [] => .ok []
  | r :: rest =>
    match load_questions_from_result fs r with
    | .error e => .error e
    | .ok qs =>
      match mergeAll fs rest with
      | .error e => .error e
      | .ok tl => .ok (qs ++ tl)

/-- Steps 2-3 of `QuizAggregator.aggregate` (aggregator.py, lines 104-111):
collect all results in manifest order, then fold the loaded question lists;
the whole run aborts if any load raises. -/
def aggregateRows (fetch : String → FetchOutcome) (fs : String → StoredFile)
    (task_ids : List String) : Except Unit (List MergedRow) :=
  mergeAll fs (collect_all_results fetch task_ids)

/-- The rows a single record contributes when its load does not abort
(and `[]` on the abort case, where no row list is ever produced). -/
def loadedRows (fs : String → StoredFile) (r : ResultRecord) : List MergedRow :=
  match load_questions_from_result fs r with
  | .ok l => l
  | .error _ => []

/-- The merged row list of a run in which no load aborts: the
concatenation, in manifest order, of each collected record's rows. -/
def mergeOkRows (fetch : String → FetchOutcome) (fs : String → StoredFile)
    (task_ids : List String) : List MergedRow :=
  ((collect_all_results fetch task_ids).map (loadedRows fs)).flatten

/-- `QuizAggregator._generate_anki_csv` (aggregator.py, lines 327-358) as
the list of CSV records it writes: the fixed header row followed by one row
per question. -/
def generate_anki_csv (rows : List MergedRow) : List (List String) :=
  ["Question", "Answer", "Tags"] :: rows.map fun r => [r.question, r.answer, r.tag]

/-- The number of entries of the `questions` list of the payload referenced
by a result record, or 0 when no object payload is reachable. -/
def payloadItemCount (fs : String → StoredFile) (r : ResultRecord) : Nat :=
  match r.output with
  | none => 0
  | some path =>
    if path = "" then 0
    else
      match fs path with
      | .content p =>
        match p.questions with
        | .items l => l.length
        | _ => 0
      | _ => 0

/-- The page number of the payload referenced by a result record, defaulting
to 0 when no payload or no page number is reachable. -/
def payloadPage (fs : String → StoredFile) (r : ResultRecord) : Int :=
  match r.output with
  | none => 0
  | some path =>
    if path = "" then 0
    else
      match fs path with
      | .content p => p.page_num.getD 0
      | _ => 0

/-- The unit (page) each merged row originates from, in output order: record
by record in manifest order, one entry per row the record contributes. -/
def mergedPageTrace (fs : String → StoredFile) (records : List ResultRecord) :
    List Int :=
  (records.map fun r =>
    List.replicate (loadedRows fs r).length (payloadPage fs r)).flatten

/-- A well-formed `questions` entry: an object whose `question` and
`answer` fields are both strings (exactly what the worker writes). -/
def goodItem : ItemVal → Bool
  | .nonDict => false
  | .obj it => it.question.isSome && it.answer.isSome

/-- A SUCCESS record is well-formed when its `output` references a parsed
object payload whose `questions` field is a list of well-formed object
entries. -/
def goodSuccessRecord (fs : String → StoredFile) (r : ResultRecord) : Bool :=
  match r.output with
  | none => false
  | some path =>
    if path = "" then false
    else
      match fs path with
      | .content p =>
        match p.questions with
        | .items l => l.all goodItem
        | _ => false
      | _ => false

/-- A record's `output` is a diagnostic message, not a payload file: either
the field is absent or empty, or no parseable file exists at that path.
This is what the aggregation relies on for FAILURE records, since the code
never checks `status`: a FAILURE output that did resolve to a payload file
would contribute rows (or abort). -/
def failureOutputUnresolved (fs : String → StoredFile) (r : ResultRecord) : Bool :=
  match r.output with
  | none => true
  | some path =>
    if path = "" then true
    else
      match fs path with
      | .missing => true
      | .unreadable => true
      | .nonObject => false
      | .content _ => false

/-- Statistics record built by `QuizAggregator._generate_statistics`. -/
structure DeckStats where
  total_questions : Nat
  pages_processed : Nat
  success_rate : ℚ
  deriving DecidableEq, Repr

/-- The distinct non-empty tags of the question list, as the set
comprehension of aggregator.py line 371 computes them. -/
def distinctTags (questions : List MergedRow) : List String :=
  ((questions.map fun q => q.tag).filter fun t => t ≠ "").dedup

/-- `QuizAggregator._generate_statistics` (aggregator.py, lines 360-382):
count the questions, count the distinct non-empty page tags, and divide by
the expected page count, guarding the division when the expected count is
not positive. -/
def generate_statistics (questions : List MergedRow) (total_expected_pages : Int) :
    DeckStats :=
  let pages := (distinctTags questions).length
  { total_questions := questions.length
    pages_processed := pages
    success_rate :=
      if 0 < total_expected_pages then (pages : ℚ) / (total_expected_pages : ℚ)
      else 0 }

/-- A concrete fetch environment used to exercise the aggregation model:
task `t1` has a SUCCESS result referencing payload file `f1`, task `t2` has
a FAILURE result whose output is a diagnostic message, and fetching the
result of task `t3` fails transiently. -/
def fetchW : String → FetchOutcome := fun t =>
  if t = "t1" then .found ⟨"SUCCESS", some "f1"⟩
  else if t = "t2" then .found ⟨"FAILURE", some "LLM refused page 2"⟩
  else .fetchFailed

/-- A concrete filesystem for the aggregation model: `f1` holds a payload
with two well-formed questions for page 1; no other path resolves. -/
def fsW : String → StoredFile := fun p =>
  if p = "f1" then
    .content ⟨some "doc", some 1,
      .items [.obj ⟨some "q1", some "a1"⟩, .obj ⟨some "q2", some "a2"⟩]⟩
  else .missing

/-- A fetch environment whose single collected record is a SUCCESS whose
referenced payload file parses to a non-object JSON value. -/
def fetchCrashCx : String → FetchOutcome := fun _ => .found ⟨"SUCCESS", some "g1"⟩

/-- A filesystem on which every path parses to a non-object JSON value. -/
def fsCrashCx : String → StoredFile := fun _ => .nonObject

/-- A fetch environment whose single collected record is a FAILURE whose
`output` string happens to name an existing payload file. -/
def fetchFailureCx : String → FetchOutcome := fun _ => .found ⟨"FAILURE", some "g2"⟩

/-- A filesystem on which every path resolves to a well-formed payload with
one question for page 7. -/
def fsFailureCx : String → StoredFile := fun _ =>
  .content ⟨some "doc", some 7, .items [.obj ⟨some "q", some "a"⟩]⟩

end AggregatorM

open QueueClientM ProducerM WorkerM AggregatorM

/-- C9: for every dequeue call against an existing but empty queue (the
service responds 204), the gateway returns the no-task outcome `none`
without raising; it raises only for queue-not-found (404), invalid-request
(400), and transport/timeout or other unexpected-status failures, each
mapped to a distinct error kind. -/
theorem claim_C9_dequeue_empty_is_not_an_error :
    (∀ (α : Type) (body : α), dequeue_task (HttpOutcome.response 204 body) = .ok none)
    ∧ (∀ (α : Type) (body : α),
        dequeue_task (HttpOutcome.response 404 body) = .error .notFound)
    ∧ (∀ (α : Type) (body : α),
        dequeue_task (HttpOutcome.response 400 body) = .error .invalidRequest)
    ∧ (∀ (α : Type), dequeue_task (HttpOutcome.transportFailure (α := α)) = .error .transient)
    ∧ (∀ (α : Type) (body : α) (code : Nat), 400 ≤ code → code ≠ 400 → code ≠ 404 →
        dequeue_task (HttpOutcome.response code body) = .error .transient)
    ∧ (∀ (α : Type) (resp : HttpOutcome α) (e : QueueError),
        dequeue_task resp = .error e →
          resp = .transportFailure ∨ ∃ code body, resp = .response code body ∧ 400 ≤ code)
    ∧ QueueError.notFound ≠ QueueError.invalidRequest
    ∧ QueueError.notFound ≠ QueueError.transient
    ∧ QueueError.invalidRequest ≠ QueueError.transient := by
  refine ⟨fun α body => rfl, fun α body => rfl, fun α body => rfl, fun α => rfl,
    ?_, ?_, by simp, by simp, by simp⟩
  · intro α body code h1 h2 h3
    simp only [dequeue_task]
    split_ifs <;> first | rfl | omega
  · intro α resp e h
    cases resp with
    | transportFailure => exact Or.inl rfl
    | response code body =>
      refine Or.inr ⟨code, body, rfl, ?_⟩
      simp only [dequeue_task] at h
      split_ifs at h with h1 h2 h3 h4
      · omega
      · omega
      · exact h4

/-- C9 witness: concrete instances of the dequeue outcomes. -/
theorem claim_C9_dequeue_empty_is_not_an_error_witness :
    dequeue_task (HttpOutcome.response 204 (0 : Nat)) = .ok none
    ∧ dequeue_task (HttpOutcome.response 500 (0 : Nat)) = .error .transient :=
  ⟨claim_C9_dequeue_empty_is_not_an_error.1 Nat 0,
    claim_C9_dequeue_empty_is_not_an_error.2.2.2.2.1 Nat 0 500 (by decide) (by decide)
      (by decide)⟩

/-- Helper: the `i`-th enqueue call of a producer run carries
`page_num = i + 1` and `priority = i + 1`. -/
theorem enqueueCalls_get (pdf_id pdf_name : String) (ips : List String) (i : Nat)
    (h : i < (enqueueCalls pdf_id pdf_name ips).length) :
    ((enqueueCalls pdf_id pdf_name ips).get ⟨i, h⟩).priority = i + 1
    ∧ ((enqueueCalls pdf_id pdf_name ips).get ⟨i, h⟩).page_num = i + 1 := by
  have hlen : (enqueueCalls pdf_id pdf_name ips).length = ips.length := by
    simp [enqueueCalls]
  have hi : i < ips.enum.length := by simpa [enqueueCalls] using h
  constructor <;>
    simp [enqueueCalls, List.get_eq_getElem, List.getElem_map, List.getElem_enum]

/-- C8: for every producer run over the extracted units, the task enqueued
for unit `i` (units numbered from 1) carries priority `i`, so the priority
assigned to unit `i` is strictly less than the priority assigned to unit
`i + 1`. -/
theorem claim_C8_priorities_strictly_increase (pdf_id pdf_name : String)
    (ips : List String) :
    (∀ (i : Nat) (h : i < (enqueueCalls pdf_id pdf_name ips).length),
      ((enqueueCalls pdf_id pdf_name ips).get ⟨i, h⟩).priority = i + 1)
    ∧ (∀ (i : Nat) (h : i + 1 < (enqueueCalls pdf_id pdf_name ips).length),
      ((enqueueCalls pdf_id pdf_name ips).get ⟨i, by omega⟩).priority <
        ((enqueueCalls pdf_id pdf_name ips).get ⟨i + 1, h⟩).priority) := by
  refine ⟨fun i h => (enqueueCalls_get pdf_id pdf_name ips i h).1, fun i h => ?_⟩
  rw [(enqueueCalls_get pdf_id pdf_name ips i (by omega)).1,
    (enqueueCalls_get pdf_id pdf_name ips (i + 1) h).1]
  omega

/-- C8 witness: a three-page run assigns priorities 1, 2, 3 in order. -/
theorem claim_C8_priorities_strictly_increase_witness :
    ((enqueueCalls "doc" "doc.pdf" ["p1", "p2", "p3"]).get ⟨0, by decide⟩).priority <
      ((enqueueCalls "doc" "doc.pdf" ["p1", "p2", "p3"]).get ⟨1, by decide⟩).priority :=
  (claim_C8_priorities_strictly_increase "doc" "doc.pdf" ["p1", "p2", "p3"]).2 0 (by decide)

/-- C6 counterexample: on a successful run whose generated pdf identifier is
`"job-a"` and whose created queue has id `"queue-b"`, `process_pdf` returns
`"queue-b"` — the queue id — which differs from `"job-a"`, the job
identifier under which the manifest is stored (`{pdf_id}_metadata.json`). -/
theorem claim_C6_counterexample_returns_queue_id_not_job_id :
    (process_pdf "job-a" "queue-b" "doc.pdf" ["p1.png"] 1 (fun i => some (toString i))).2
        = "queue-b"
    ∧ (process_pdf "job-a" "queue-b" "doc.pdf" ["p1.png"] 1
        (fun i => some (toString i))).1.pdf_id = "job-a"
    ∧ (process_pdf "job-a" "queue-b" "doc.pdf" ["p1.png"] 1 (fun i => some (toString i))).2
        ≠ (process_pdf "job-a" "queue-b" "doc.pdf" ["p1.png"] 1
            (fun i => some (toString i))).1.pdf_id := by
  refine ⟨rfl, rfl, ?_⟩
  decide

/-- C6 (amended): for every successful submission of a valid source, the
Producer's top-level `process_pdf` returns the identifier of the queue it
created for the job — the manifest's `queue_id` field — not the job/pdf
identifier. -/
theorem claim_C6_process_pdf_returns_created_queue_id
    (pdf_id queue_id pdf_name : String) (ips : List String) (tp : Nat)
    (accept : Nat → Option String) :
    (process_pdf pdf_id queue_id pdf_name ips tp accept).2 = queue_id
    ∧ (process_pdf pdf_id queue_id pdf_name ips tp accept).2
        = (process_pdf pdf_id queue_id pdf_name ips tp accept).1.queue_id :=
  ⟨rfl, rfl⟩

/-- Helper: a `filterMap` whose function hits `some` on every element of the
list keeps the list's length. -/
theorem length_filterMap_of_all_isSome {α β : Type} (f : α → Option β) :
    ∀ (l : List α), (∀ a ∈ l, (f a).isSome) → (l.filterMap f).length = l.length := by
  intro l
  induction l with
  | nil => intro _; rfl
  | cons a t ih =>
    intro h
    have ha := h a (List.mem_cons_self a t)
    obtain ⟨b, hb⟩ := Option.isSome_iff_exists.mp ha
    rw [List.filterMap_cons, hb]
    simp only [List.length_cons]
    rw [ih fun x hx => h x (List.mem_cons_of_mem a hx)]

/-- C5 counterexample: a producer run over one extracted page whose single
task submission fails writes a manifest with `total_pages = 1` (the spec's
`total_units`) but an empty `task_ids` list, so
`total_units == len(task_ids)` fails. -/
theorem claim_C5_counterexample_total_pages_vs_task_ids :
    ((process_pdf "job-a" "queue-b" "doc.pdf" ["p1.png"] 1 (fun _ => none)).1.total_pages = 1)
    ∧ ((process_pdf "job-a" "queue-b" "doc.pdf" ["p1.png"] 1
        (fun _ => none)).1.task_ids.length = 0)
    ∧ ¬((process_pdf "job-a" "queue-b" "doc.pdf" ["p1.png"] 1 (fun _ => none)).1.total_pages
        = (process_pdf "job-a" "queue-b" "doc.pdf" ["p1.png"] 1
            (fun _ => none)).1.task_ids.length) := by
  refine ⟨rfl, rfl, ?_⟩
  decide

/-- Helper: a `filterMap` misses at least one element when its function
hits `none` somewhere in the list. -/
theorem length_filterMap_lt_of_mem_none {α β : Type} (f : α → Option β) :
    ∀ (l : List α), (∃ a ∈ l, f a = none) → (l.filterMap f).length < l.length := by
  intro l
  induction l with
  | nil =>
    rintro ⟨a, ha, _⟩
    exact absurd ha (List.not_mem_nil a)
  | cons a t ih =>
    rintro ⟨x, hx, hfx⟩
    rcases List.mem_cons.mp hx with rfl | hxt
    · rw [List.filterMap_cons_none hfx]
      simp only [List.length_cons]
      exact Nat.lt_succ_of_le (List.length_filterMap_le f t)
    · cases hfa : f a with
      | none =>
        rw [List.filterMap_cons_none hfa]
        simp only [List.length_cons]
        exact Nat.lt_succ_of_lt (ih ⟨x, hxt, hfx⟩)
      | some b =>
        rw [List.filterMap_cons_some hfa]
        simp only [List.length_cons]
        exact Nat.succ_lt_succ (ih ⟨x, hxt, hfx⟩)

/-- C5 (amended): in the manifest of a producer run over the extracted
pages, `task_ids` has at most `total_pages` entries (the stored unit
count); the two are equal exactly in the runs where every per-unit task
submission was accepted, and on every run where some submission failed and
was skipped, `task_ids` is strictly shorter than `total_pages` — so the
invariant `total_units == len(task_ids)` fails precisely on the runs with
skipped submissions. -/
theorem claim_C5_task_ids_at_most_total_pages
    (pdf_id queue_id pdf_name : String) (ips : List String)
    (accept : Nat → Option String) :
    ((process_pdf pdf_id queue_id pdf_name ips ips.length accept).1.task_ids.length
      ≤ (process_pdf pdf_id queue_id pdf_name ips ips.length accept).1.total_pages)
    ∧ ((∀ c ∈ enqueueCalls pdf_id pdf_name ips, (accept c.page_num).isSome) →
      (process_pdf pdf_id queue_id pdf_name ips ips.length accept).1.task_ids.length
        = (process_pdf pdf_id queue_id pdf_name ips ips.length accept).1.total_pages)
    ∧ ((∃ c ∈ enqueueCalls pdf_id pdf_name ips, accept c.page_num = none) →
      (process_pdf pdf_id queue_id pdf_name ips ips.length accept).1.task_ids.length
        < (process_pdf pdf_id queue_id pdf_name ips ips.length accept).1.total_pages)
    ∧ ((process_pdf pdf_id queue_id pdf_name ips ips.length accept).1.task_ids.length
        = (process_pdf pdf_id queue_id pdf_name ips ips.length accept).1.total_pages
      ↔ ∀ c ∈ enqueueCalls pdf_id pdf_name ips, (accept c.page_num).isSome) := by
  have hlen : (enqueueCalls pdf_id pdf_name ips).length = ips.length := by
    simp [enqueueCalls]
  have hle : ((enqueueCalls pdf_id pdf_name ips).filterMap
      fun c => accept c.page_num).length ≤ ips.length := by
    calc ((enqueueCalls pdf_id pdf_name ips).filterMap fun c => accept c.page_num).length
        ≤ (enqueueCalls pdf_id pdf_name ips).length := List.length_filterMap_le _ _
      _ = ips.length := hlen
  have heq : ∀ (_ : ∀ c ∈ enqueueCalls pdf_id pdf_name ips, (accept c.page_num).isSome),
      ((enqueueCalls pdf_id pdf_name ips).filterMap
        fun c => accept c.page_num).length = ips.length := by
    intro h
    rw [length_filterMap_of_all_isSome _ _ h, hlen]
  have hlt : ∀ (_ : ∃ c ∈ enqueueCalls pdf_id pdf_name ips, accept c.page_num = none),
      ((enqueueCalls pdf_id pdf_name ips).filterMap
        fun c => accept c.page_num).length < ips.length := by
    intro h
    calc ((enqueueCalls pdf_id pdf_name ips).filterMap fun c => accept c.page_num).length
        < (enqueueCalls pdf_id pdf_name ips).length :=
          length_filterMap_lt_of_mem_none _ _ h
      _ = ips.length := hlen
  refine ⟨hle, heq, hlt, ⟨?_, heq⟩⟩
  intro he
  by_contra hnall
  push_neg at hnall
  obtain ⟨c, hc, hnone⟩ := hnall
  exact absurd he (Nat.ne_of_lt (hlt ⟨c, hc, Option.not_isSome_iff_eq_none.mp hnone⟩))

/-- C5 amended-claim witness: a two-page run with one failed submission
stays strictly below the stored unit count, and a fully accepted two-page
run reaches it. -/
theorem claim_C5_task_ids_at_most_total_pages_witness :
    ((process_pdf "j" "q" "d.pdf" ["p1", "p2"] 2 (fun i => if i = 2 then none else some "t")).1.task_ids.length
      ≤ (process_pdf "j" "q" "d.pdf" ["p1", "p2"] 2
          (fun i => if i = 2 then none else some "t")).1.total_pages)
    ∧ ((process_pdf "j" "q" "d.pdf" ["p1", "p2"] 2 (fun i => if i = 2 then none else some "t")).1.task_ids.length
      < (process_pdf "j" "q" "d.pdf" ["p1", "p2"] 2
          (fun i => if i = 2 then none else some "t")).1.total_pages)
    ∧ ((process_pdf "j" "q" "d.pdf" ["p1", "p2"] 2 (fun i => some (toString i))).1.task_ids.length
      = (process_pdf "j" "q" "d.pdf" ["p1", "p2"] 2
          (fun i => some (toString i))).1.total_pages) :=
  ⟨(claim_C5_task_ids_at_most_total_pages "j" "q" "d.pdf" ["p1", "p2"]
      (fun i => if i = 2 then none else some "t")).1,
    (claim_C5_task_ids_at_most_total_pages "j" "q" "d.pdf" ["p1", "p2"]
      (fun i => if i = 2 then none else some "t")).2.2.1 (by decide),
    (claim_C5_task_ids_at_most_total_pages "j" "q" "d.pdf" ["p1", "p2"]
      (fun i => some (toString i))).2.1 (by decide)⟩

/-- C10: the statistics computation is total for every questions list and
every non-negative expected count; when the expected count is zero the
success rate is 0 (the division is guarded), and otherwise it equals the
number of distinct non-empty page tags divided by the expected count. -/
theorem claim_C10_statistics_total_and_guarded (qs : List MergedRow) (n : Int)
    (hn : 0 ≤ n) :
    (n = 0 → (generate_statistics qs n).success_rate = 0)
    ∧ (0 < n → (generate_statistics qs n).success_rate
        = ((distinctTags qs).length : ℚ) / (n : ℚ))
    ∧ (generate_statistics qs n).pages_processed = (distinctTags qs).length
    ∧ (generate_statistics qs n).total_questions = qs.length := by
  refine ⟨fun h0 => ?_, fun hpos => ?_, rfl, rfl⟩
  · simp [generate_statistics, h0]
  · simp [generate_statistics, hpos]

/-- C10 witness: one of three expected pages represented, expected count 2
and 0 both handled. -/
theorem claim_C10_statistics_total_and_guarded_witness :
    ((0 : Int) ≤ 2
      ∧ (generate_statistics [⟨"q", "a", "d_page_1"⟩] 2).success_rate
          = ((distinctTags [⟨"q", "a", "d_page_1"⟩]).length : ℚ) / ((2 : Int) : ℚ))
    ∧ ((0 : Int) ≤ 0
      ∧ (generate_statistics [⟨"q", "a", "d_page_1"⟩] 0).success_rate = 0) :=
  ⟨⟨by decide,
    (claim_C10_statistics_total_and_guarded [⟨"q", "a", "d_page_1"⟩] 2 (by decide)).2.1
      (by decide)⟩,
   ⟨le_refl 0,
    (claim_C10_statistics_total_and_guarded [⟨"q", "a", "d_page_1"⟩] 0 (le_refl 0)).1
      rfl⟩⟩

/-- C4 counterexample: a dequeued task whose params string holds valid
JSON that is not an object (for example `"null"` or `"[1,2]"`) decodes
successfully yet has no `pdf_id`, `page_num` or `page_path` field; instead
of submitting a FAILURE result, the worker crashes with an uncaught
`AttributeError` at `params.get("pdf_id")` — no FAILURE is ever
submitted. -/
theorem claim_C4_counterexample_non_object_params_crash :
    process_task 3 2 ⟨some "t1", some ParamsField.decodedNonObject⟩ [.succeeded]
        = .crash
    ∧ ProcessResult.crash
        ≠ .finished ⟨some (.failureResult "Missing required task parameters"), [], 0⟩
    ∧ ProcessResult.crash
        ≠ .finished ⟨some (.failureResult "Invalid task params JSON"), [], 0⟩ := by
  refine ⟨rfl, by simp, by simp⟩

/-- C4 (amended): for a dequeued task with a truthy id, a params string
that fails to decode, or that decodes to an object failing the
required-field check (truthy `pdf_id`, `isinstance`-int `page_num`, truthy
`page_path`), makes the worker submit a single FAILURE result without
entering the generation step (zero generation runs, no sleeps, no retry),
independent of the would-be processing outcomes.  A params string that
decodes to a non-object JSON value instead crashes the worker with an
uncaught `AttributeError` and no FAILURE result; and the check is
truthiness/type-based only, so a decoded object passing it (even with a
truthy non-string `pdf_id` or `page_path`) proceeds into the processing
loop and the generation step runs. -/
theorem claim_C4_malformed_task_fails_without_processing
    (max_retries : Nat) (retry_backoff : ℚ) (t : RawTask)
    (outcomes : List AttemptOutcome) (hid : truthyStr t.id = true) :
    (t.params = some .undecodable →
      process_task max_retries retry_backoff t outcomes
        = .finished ⟨some (.failureResult "Invalid task params JSON"), [], 0⟩)
    ∧ (∀ p, t.params = some (.decoded p) → hasRequiredParams p = false →
      process_task max_retries retry_backoff t outcomes
        = .finished ⟨some (.failureResult "Missing required task parameters"), [], 0⟩)
    ∧ (t.params = some .decodedNonObject →
      process_task max_retries retry_backoff t outcomes = .crash)
    ∧ (∀ p, t.params = some (.decoded p) → hasRequiredParams p = true →
      process_task max_retries retry_backoff t outcomes
        = .finished (retryLoop max_retries retry_backoff outcomes 0 [] 0)) := by
  refine ⟨?_, ?_, ?_, ?_⟩
  · intro hp
    simp [process_task, hid, hp]
  · intro p hp hreq
    simp [process_task, hid, hp, hreq]
  · intro hp
    simp [process_task, hid, hp]
  · intro p hp hreq
    simp [process_task, hid, hp, hreq]

/-- C4 witness: an undecodable payload and a decoded object missing
`page_num` both yield an immediate FAILURE with no generation run; a
non-object payload crashes; and an object whose `pdf_id` is a truthy
non-string passes the check, so the generation step runs (one generation
run on an immediately successful attempt). -/
theorem claim_C4_malformed_task_fails_without_processing_witness :
    (truthyStr (some "t1") = true
      ∧ process_task 3 2 ⟨some "t1", some .undecodable⟩ [.succeeded]
          = .finished ⟨some (.failureResult "Invalid task params JSON"), [], 0⟩)
    ∧ process_task 3 2
        ⟨some "t2", some (.decoded ⟨.str "doc", .absent, .str "p.png"⟩)⟩ [.succeeded]
        = .finished ⟨some (.failureResult "Missing required task parameters"), [], 0⟩
    ∧ process_task 3 2 ⟨some "t3", some .decodedNonObject⟩ [.succeeded] = .crash
    ∧ process_task 3 2
        ⟨some "t4", some (.decoded ⟨.other true, .intVal 1, .str "p.png"⟩)⟩ [.succeeded]
        = .finished ⟨some .successResult, [], 1⟩ :=
  ⟨⟨by decide,
    (claim_C4_malformed_task_fails_without_processing 3 2 ⟨some "t1", some .undecodable⟩
      [.succeeded] (by decide)).1 rfl⟩,
   (claim_C4_malformed_task_fails_without_processing 3 2
      ⟨some "t2", some (.decoded ⟨.str "doc", .absent, .str "p.png"⟩)⟩
      [.succeeded] (by decide)).2.1 ⟨.str "doc", .absent, .str "p.png"⟩ rfl (by decide),
   (claim_C4_malformed_task_fails_without_processing 3 2 ⟨some "t3", some .decodedNonObject⟩
      [.succeeded] (by decide)).2.2.1 rfl,
   ((claim_C4_malformed_task_fails_without_processing 3 2
      ⟨some "t4", some (.decoded ⟨.other true, .intVal 1, .str "p.png"⟩)⟩
      [.succeeded] (by decide)).2.2.2 ⟨.other true, .intVal 1, .str "p.png"⟩ rfl
      (by decide)).trans (by rfl)⟩


/-- Helper: one-step unfolding of the worker's retry loop at a transient
queue-service error. -/
theorem retryLoop_queue_cons (max_retries : Nat) (u : ℚ) (m : String)
    (L : List AttemptOutcome) (a : Nat) (sleeps : List ℚ) (runs : Nat) :
    retryLoop max_retries u (.queueError m :: L) a sleeps runs =
      if max_retries < a + 1 then
        ⟨some (.failureResult ("Failed to submit result: " ++ m)), sleeps, runs + 1⟩
      else
        retryLoop max_retries u L (a + 1)
          (sleeps ++ [u * ((a + 1 : Nat) : ℚ)]) (runs + 1) := rfl

/-- Helper: shifting the linear-backoff sleep schedule by one attempt. -/
theorem sleeps_shift (u : ℚ) (a k : Nat) :
    u * ((a + 1 : Nat) : ℚ) ::
        (List.range k).map (fun i : Nat => u * (((a + 1 : Nat) : ℚ) + (i : ℚ) + 1))
      = (List.range (k + 1)).map (fun i : Nat => u * ((a : ℚ) + (i : ℚ) + 1)) := by
  rw [List.range_succ_eq_map, List.map_cons, List.map_map]
  congr 1
  · push_cast
    ring
  · apply List.map_congr_left
    intro i _
    simp only [Function.comp_apply, Nat.succ_eq_add_one]
    push_cast
    ring

/-- Helper: when every iteration of the worker's processing loop ends in a
transient queue-service error, the loop sleeps `retry_backoff * attempt`
after each non-final attempt and finally submits a FAILURE result carrying
the last error, consuming one attempt per error. -/
theorem retryLoop_all_queue_errors (max_retries : Nat) (u : ℚ) :
    ∀ (msgs : List String) (a : Nat) (sleeps : List ℚ) (runs : Nat),
      msgs ≠ [] → msgs.length + a = max_retries + 1 →
      retryLoop max_retries u (msgs.map .queueError) a sleeps runs =
        ⟨some (.failureResult ("Failed to submit result: " ++ msgs.getLastD "")),
          sleeps ++ (List.range (msgs.length - 1)).map
            (fun i : Nat => u * ((a : ℚ) + (i : ℚ) + 1)),
          runs + msgs.length⟩ := by
  intro msgs
  induction msgs with
  | nil => intro a sleeps runs hne; exact absurd rfl hne
  | cons m rest ih =>
    intro a sleeps runs _ hlen
    cases rest with
    | nil =>
      have ha : max_retries < a + 1 := by
        simp only [List.length_cons, List.length_nil] at hlen
        omega
      rw [List.map_cons, List.map_nil, retryLoop_queue_cons, if_pos ha]
      simp [List.getLastD_cons]
    | cons m2 rest2 =>
      have hle : ¬ max_retries < a + 1 := by
        simp only [List.length_cons] at hlen
        omega
      rw [List.map_cons, retryLoop_queue_cons, if_neg hle,
        ih (a + 1) _ _ (by simp) (by simp only [List.length_cons] at hlen ⊢; omega)]
      simp only [ProcessTrace.mk.injEq]
      refine ⟨?_, ?_, ?_⟩
      · simp [List.getLastD_cons]
      · simp only [List.length_cons, Nat.add_sub_cancel, List.append_assoc,
          List.singleton_append]
        rw [sleeps_shift]
      · simp only [List.length_cons]
        omega

/-- C3: for every task whose result submission keeps failing with a
transient queue-service error, the worker retries up to `max_retries`
times, sleeping `retry_backoff * attempt` (linear in the attempt number)
between attempts, and once the maximum attempts are exceeded it submits a
FAILURE result whose diagnostic preserves the last transport error; in
total the processing loop runs `max_retries + 1` times and sleeps
`max_retries` times. -/
theorem claim_C3_submit_retries_linear_backoff_then_failure
    (max_retries : Nat) (retry_backoff : ℚ) (msgs : List String)
    (hlen : msgs.length = max_retries + 1) :
    retryLoop max_retries retry_backoff (msgs.map .queueError) 0 [] 0 =
      ⟨some (.failureResult ("Failed to submit result: " ++ msgs.getLastD "")),
        (List.range max_retries).map (fun i : Nat => retry_backoff * ((i : ℚ) + 1)),
        max_retries + 1⟩ := by
  rw [retryLoop_all_queue_errors max_retries retry_backoff msgs 0 [] 0
    (by intro h; rw [h] at hlen; simp at hlen) (by omega)]
  rw [hlen]
  simp only [Nat.add_sub_cancel, List.nil_append, ProcessTrace.mk.injEq]
  refine ⟨trivial, ?_, by omega⟩
  apply List.map_congr_left
  intro i _
  push_cast
  ring

/-- C3 witness: with `max_retries = 2` and `retry_backoff = 3`, three
consecutive transient submission errors produce sleeps `[3, 6]` and a final
FAILURE preserving the last error. -/
theorem claim_C3_submit_retries_linear_backoff_then_failure_witness :
    retryLoop 2 3 (["e1", "e2", "e3"].map .queueError) 0 [] 0 =
      ⟨some (.failureResult "Failed to submit result: e3"), [3, 6], 3⟩ := by
  rw [claim_C3_submit_retries_linear_backoff_then_failure 2 3 ["e1", "e2", "e3"]
    (by decide)]
  norm_num [List.range_succ, List.getLastD_cons]
  rfl

/-- Helper: one-step unfolding of the aggregator's wait loop at a status
snapshot. -/
theorem waitLoop_snapshot_cons (n : Int) (mb : ℚ) (s : QueueStatus)
    (rest : List PollEvent) (b : ℚ) :
    waitLoop n mb (.snapshot s :: rest) b =
      if isCompleteStatus s n then (.completed, [])
      else ((waitLoop n mb rest (min mb (b * 2))).1,
        b :: (waitLoop n mb rest (min mb (b * 2))).2) := rfl

/-- Helper: one-step unfolding of the aggregator's wait loop at a transient
status-fetch failure. -/
theorem waitLoop_transient_cons (n : Int) (mb : ℚ) (rest : List PollEvent) (b : ℚ) :
    waitLoop n mb (.transientFailure :: rest) b =
      ((waitLoop n mb rest (min mb (b * 2))).1,
        b :: (waitLoop n mb rest (min mb (b * 2))).2) := rfl

/-- Helper: a queue-not-found poll outcome aborts the wait loop at once. -/
theorem waitLoop_queueMissing_cons (n : Int) (mb : ℚ) (rest : List PollEvent) (b : ℚ) :
    waitLoop n mb (.queueMissing :: rest) b = (.aborted, []) := rfl

/-- C1: the aggregator's wait loop, polling with expected count
`len(manifest.task_ids)`, stops and proceeds exactly on a status with
`pending == 0` and `completed == expected_count`; on every status where
either conjunct fails it sleeps the current backoff and keeps waiting. -/
theorem claim_C1_completion_predicate (task_ids : List String) (s : QueueStatus)
    (rest : List PollEvent) (b mb : ℚ) :
    (s.pendingTaskCount = some 0
        ∧ s.completedResultCount = some (expectedCount task_ids) →
      waitLoop (expectedCount task_ids) mb (.snapshot s :: rest) b = (.completed, []))
    ∧ (¬(s.pendingTaskCount = some 0
        ∧ s.completedResultCount = some (expectedCount task_ids)) →
      waitLoop (expectedCount task_ids) mb (.snapshot s :: rest) b =
        ((waitLoop (expectedCount task_ids) mb rest (min mb (b * 2))).1,
          b :: (waitLoop (expectedCount task_ids) mb rest (min mb (b * 2))).2)) := by
  constructor
  · rintro ⟨h1, h2⟩
    rw [waitLoop_snapshot_cons, if_pos]
    simp [isCompleteStatus, h1, h2]
  · intro h
    rw [waitLoop_snapshot_cons, if_neg]
    intro hc
    apply h
    simpa [isCompleteStatus] using hc

/-- C1 witness: with three expected results, the status
`{pending: 0, completed: 3}` stops the wait at once, while
`{pending: 1, completed: 2}` sleeps and keeps waiting. -/
theorem claim_C1_completion_predicate_witness :
    waitLoop (expectedCount ["t1", "t2", "t3"]) 30
        [PollEvent.snapshot ⟨some 0, some 3, some false⟩] 1 = (.completed, [])
    ∧ waitLoop (expectedCount ["t1", "t2", "t3"]) 30
        [PollEvent.snapshot ⟨some 1, some 2, some true⟩] 1 = (.ranOut, [1]) := by
  constructor
  · exact (claim_C1_completion_predicate ["t1", "t2", "t3"]
      ⟨some 0, some 3, some false⟩ [] 1 30).1 ⟨rfl, by decide⟩
  · exact ((claim_C1_completion_predicate ["t1", "t2", "t3"]
      ⟨some 1, some 2, some true⟩ [] 1 30).2 (by decide)).trans rfl

/-- Helper: the wait loop's delay list is empty or starts with the current
backoff. -/
theorem waitLoop_delays_shape (n : Int) (mb : ℚ) (events : List PollEvent) (b : ℚ) :
    (waitLoop n mb events b).2 = [] ∨ (waitLoop n mb events b).2.head? = some b := by
  cases events with
  | nil => exact Or.inl rfl
  | cons e rest =>
    cases e with
    | queueMissing => exact Or.inl rfl
    | transientFailure => exact Or.inr rfl
    | snapshot s =>
      by_cases hc : isCompleteStatus s n = true
      · left
        rw [waitLoop_snapshot_cons, if_pos hc]
      · right
        rw [waitLoop_snapshot_cons, if_neg hc]
        rfl

/-- Helper: pushing the wait-loop delay invariants through one sleep. -/
theorem waitLoop_delays_cons_step (n : Int) (mb : ℚ) (rest : List PollEvent) (b : ℚ)
    (h0 : 0 ≤ b) (hmb : b ≤ mb)
    (ihc : List.Chain' (fun x y => y = min mb (x * 2))
      (waitLoop n mb rest (min mb (b * 2))).2)
    (ihle : List.Chain' (· ≤ ·) (waitLoop n mb rest (min mb (b * 2))).2)
    (ihmem : ∀ d ∈ (waitLoop n mb rest (min mb (b * 2))).2, 0 ≤ d ∧ d ≤ mb) :
    List.Chain' (fun x y => y = min mb (x * 2))
      (b :: (waitLoop n mb rest (min mb (b * 2))).2)
    ∧ List.Chain' (· ≤ ·) (b :: (waitLoop n mb rest (min mb (b * 2))).2)
    ∧ ∀ d ∈ b :: (waitLoop n mb rest (min mb (b * 2))).2, 0 ≤ d ∧ d ≤ mb := by
  have hble : b ≤ min mb (b * 2) := le_min hmb (by linarith)
  refine ⟨?_, ?_, ?_⟩
  · apply List.chain'_cons'.mpr
    refine ⟨?_, ihc⟩
    intro y hy
    rcases waitLoop_delays_shape n mb rest (min mb (b * 2)) with hnil | hhd
    · rw [hnil] at hy
      simp at hy
    · rw [hhd] at hy
      simp only [Option.mem_some_iff] at hy
      exact hy.symm
  · apply List.chain'_cons'.mpr
    refine ⟨?_, ihle⟩
    intro y hy
    rcases waitLoop_delays_shape n mb rest (min mb (b * 2)) with hnil | hhd
    · rw [hnil] at hy
      simp at hy
    · rw [hhd] at hy
      simp only [Option.mem_some_iff] at hy
      exact hy ▸ hble
  · intro d hd
    rcases List.mem_cons.mp hd with hdb | hdm
    · exact hdb ▸ ⟨h0, hmb⟩
    · exact ihmem d hdm

/-- Helper: along any poll-outcome trace started with `0 ≤ b ≤ max_backoff`,
the wait loop's recorded delays follow the recurrence
`next = min(max_backoff, previous * 2)`, are non-decreasing, and stay within
`[0, max_backoff]`. -/
theorem waitLoop_delays_invariant (n : Int) (mb : ℚ) :
    ∀ (events : List PollEvent) (b : ℚ), 0 ≤ b → b ≤ mb →
      List.Chain' (fun x y => y = min mb (x * 2)) (waitLoop n mb events b).2
      ∧ List.Chain' (· ≤ ·) (waitLoop n mb events b).2
      ∧ ∀ d ∈ (waitLoop n mb events b).2, 0 ≤ d ∧ d ≤ mb := by
  intro events
  induction events with
  | nil =>
    intro b h0 hmb
    exact ⟨List.chain'_nil, List.chain'_nil, by simp [waitLoop]⟩
  | cons e rest ih =>
    intro b h0 hmb
    have hb0 : 0 ≤ min mb (b * 2) := le_min (le_trans h0 hmb) (by linarith)
    have hbm : min mb (b * 2) ≤ mb := min_le_left _ _
    obtain ⟨ihc, ihle, ihmem⟩ := ih (min mb (b * 2)) hb0 hbm
    cases e with
    | queueMissing =>
      rw [waitLoop_queueMissing_cons]
      exact ⟨List.chain'_nil, List.chain'_nil, by simp⟩
    | transientFailure =>
      rw [waitLoop_transient_cons]
      exact waitLoop_delays_cons_step n mb rest b h0 hmb ihc ihle ihmem
    | snapshot s =>
      by_cases hc : isCompleteStatus s n = true
      · rw [waitLoop_snapshot_cons, if_pos hc]
        exact ⟨List.chain'_nil, List.chain'_nil, by simp⟩
      · rw [waitLoop_snapshot_cons, if_neg hc]
        exact waitLoop_delays_cons_step n mb rest b h0 hmb ihc ihle ihmem

/-- C7: in the aggregator's wait loop the delay sequence starts at the base
delay 1 and follows `next = min(30, previous * 2)`, hence the observed
delays are non-decreasing and capped at 30; a transient status-fetch error
sleeps the current backoff and retries rather than aborting, while a
queue-not-found error aborts the wait at once. -/
theorem claim_C7_backoff_monotone_capped_and_retry (expected : Int)
    (events rest : List PollEvent) :
    ((wait_for_completion expected events).2 = []
      ∨ (wait_for_completion expected events).2.head? = some 1)
    ∧ List.Chain' (fun x y => y = min 30 (x * 2)) (wait_for_completion expected events).2
    ∧ List.Chain' (· ≤ ·) (wait_for_completion expected events).2
    ∧ (∀ d ∈ (wait_for_completion expected events).2, d ≤ 30)
    ∧ wait_for_completion expected (.transientFailure :: rest)
        = ((waitLoop expected 30 rest (min 30 (1 * 2))).1,
            1 :: (waitLoop expected 30 rest (min 30 (1 * 2))).2)
    ∧ wait_for_completion expected (.queueMissing :: rest) = (.aborted, []) := by
  obtain ⟨hc, hle, hmem⟩ :=
    waitLoop_delays_invariant expected 30 events 1 (by norm_num) (by norm_num)
  exact ⟨waitLoop_delays_shape expected 30 events 1, hc, hle,
    fun d hd => (hmem d hd).2, rfl, rfl⟩

/-- C7 witness: two transient failures then a completed snapshot give the
delay trace `[1, 2]` and completion; a queue-not-found outcome aborts. -/
theorem claim_C7_backoff_monotone_capped_and_retry_witness :
    wait_for_completion 3 [PollEvent.transientFailure, PollEvent.transientFailure,
        PollEvent.snapshot ⟨some 0, some 3, some false⟩] = (.completed, [1, 2])
    ∧ wait_for_completion 3 [PollEvent.queueMissing] = (.aborted, []) := by
  constructor
  · have hmin : min (30 : ℚ) (1 * 2) = 2 := by norm_num
    rw [(claim_C7_backoff_monotone_capped_and_retry 3 []
      [PollEvent.transientFailure, PollEvent.snapshot ⟨some 0, some 3, some false⟩]).2.2.2.2.1,
      hmin]
    rfl
  · exact (claim_C7_backoff_monotone_capped_and_retry 3 [] []).2.2.2.2.2

/-- Helper: one-step unfolding of normalization at an object entry. -/
theorem normalizeItems_cons_obj (tag : String) (it : RawItem) (rest : List ItemVal) :
    normalizeItems tag (.obj it :: rest) =
      (match normalizeItems tag rest with
      | .error e => .error e
      | .ok tl =>
        match it.question, it.answer with
        | some q, some a => .ok (⟨q, a, tag⟩ :: tl)
        | _, _ => .ok tl) := rfl

/-- Helper: when every entry of a payload is a well-formed object item,
normalization does not abort and keeps every entry. -/
theorem normalizeItems_ok_of_all (tag : String) :
    ∀ (l : List ItemVal), l.all goodItem = true →
      ∃ rows, normalizeItems tag l = .ok rows ∧ rows.length = l.length := by
  intro l
  induction l with
  | nil => intro _; exact ⟨[], rfl, rfl⟩
  | cons iv rest ih =>
    intro h
    simp only [List.all_cons, Bool.and_eq_true] at h
    obtain ⟨hiv, hrest⟩ := h
    obtain ⟨rows, hok, hlen⟩ := ih hrest
    cases iv with
    | nonDict => simp [goodItem] at hiv
    | obj it =>
      obtain ⟨oq, oa⟩ := it
      simp only [goodItem, Bool.and_eq_true] at hiv
      obtain ⟨hq, ha⟩ := hiv
      cases oq with
      | none => simp at hq
      | some q =>
        cases oa with
        | none => simp at ha
        | some a =>
          refine ⟨⟨q, a, tag⟩ :: rows, ?_, ?_⟩
          · rw [normalizeItems_cons_obj, hok]
          · simp [hlen]

/-- Helper: a non-object entry anywhere in the `questions` list makes
normalization raise (`item.get` on a non-dict). -/
theorem normalizeItems_error_of_mem (tag : String) :
    ∀ (l : List ItemVal), ItemVal.nonDict ∈ l →
      normalizeItems tag l = .error () := by
  intro l
  induction l with
  | nil =>
    intro h
    exact absurd h (List.not_mem_nil _)
  | cons iv rest ih =>
    intro h
    cases iv with
    | nonDict => rfl
    | obj it =>
      have hm : ItemVal.nonDict ∈ rest := by
        rcases List.mem_cons.mp h with h1 | h2
        · exact absurd h1 (by simp)
        · exact h2
      rw [normalizeItems_cons_obj, ih hm]

/-- Helper: a record whose `output` resolves to no parseable payload file
contributes no rows and does not abort. -/
theorem load_ok_nil_of_unresolved (fs : String → StoredFile) (r : ResultRecord)
    (h : failureOutputUnresolved fs r = true) :
    load_questions_from_result fs r = .ok [] := by
  obtain ⟨st, op⟩ := r
  cases op with
  | none => rfl
  | some path =>
    by_cases hp : path = ""
    · simp [load_questions_from_result, hp]
    · cases hfs : fs path with
      | missing => simp [load_questions_from_result, hp, hfs]
      | unreadable => simp [load_questions_from_result, hp, hfs]
      | nonObject =>
        exfalso
        simp [failureOutputUnresolved, hp, hfs] at h
      | content p =>
        exfalso
        simp [failureOutputUnresolved, hp, hfs] at h

/-- Helper: a well-formed SUCCESS record loads without aborting and
contributes exactly the entry count of its referenced payload. -/
theorem load_ok_of_good (fs : String → StoredFile) (r : ResultRecord)
    (h : goodSuccessRecord fs r = true) :
    ∃ rows, load_questions_from_result fs r = .ok rows
      ∧ rows.length = payloadItemCount fs r := by
  obtain ⟨st, op⟩ := r
  cases op with
  | none => simp [goodSuccessRecord] at h
  | some path =>
    by_cases hp : path = ""
    · simp [goodSuccessRecord, hp] at h
    · cases hfs : fs path with
      | missing => simp [goodSuccessRecord, hp, hfs] at h
      | unreadable => simp [goodSuccessRecord, hp, hfs] at h
      | nonObject => simp [goodSuccessRecord, hp, hfs] at h
      | content p =>
        obtain ⟨opid, opn, oq⟩ := p
        cases oq with
        | absent => simp [goodSuccessRecord, hp, hfs] at h
        | invalid => simp [goodSuccessRecord, hp, hfs] at h
        | items l =>
          simp only [goodSuccessRecord, hp, if_false, hfs] at h
          simp only [load_questions_from_result, payloadItemCount, hp, if_false, hfs]
          exact normalizeItems_ok_of_all (tagOf ⟨opid, opn, .items l⟩) l h

/-- Helper: the abort path for a referenced payload file parsing to a
non-object value. -/
theorem load_error_of_nonObject (fs : String → StoredFile) (r : ResultRecord)
    (path : String) (ho : r.output = some path) (hp : path ≠ "")
    (hfs : fs path = .nonObject) :
    load_questions_from_result fs r = .error () := by
  obtain ⟨st, op⟩ := r
  simp only at ho
  subst ho
  simp [load_questions_from_result, hp, hfs]

/-- Helper: the abort path for a non-object entry of a referenced payload's
`questions` list. -/
theorem load_error_of_nonDict_item (fs : String → StoredFile) (r : ResultRecord)
    (path : String) (p : Payload) (l : List ItemVal)
    (ho : r.output = some path) (hp : path ≠ "") (hfs : fs path = .content p)
    (hq : p.questions = .items l) (hm : ItemVal.nonDict ∈ l) :
    load_questions_from_result fs r = .error () := by
  obtain ⟨st, op⟩ := r
  simp only at ho
  subst ho
  obtain ⟨pid, pn, pq⟩ := p
  simp only at hq
  subst hq
  simp only [load_questions_from_result, hp, if_false, hfs]
  exact normalizeItems_error_of_mem (tagOf ⟨pid, pn, .items l⟩) l hm

/-- Helper: the rows of a record whose load returned without aborting. -/
theorem loadedRows_eq_of_ok (fs : String → StoredFile) (r : ResultRecord)
    (l : List MergedRow) (h : load_questions_from_result fs r = .ok l) :
    loadedRows fs r = l := by
  unfold loadedRows
  rw [h]

/-- Helper: one-step unfolding of the result-folding loop. -/
theorem mergeAll_cons (fs : String → StoredFile) (r : ResultRecord)
    (rest : List ResultRecord) :
    mergeAll fs (r :: rest) =
      (match load_questions_from_result fs r with
      | .error e => .error e
      | .ok qs =>
        match mergeAll fs rest with
        | .error e => .error e
        | .ok tl => .ok (qs ++ tl)) := rfl

/-- Helper: when every collected record loads without aborting, the fold
returns the concatenation of the per-record rows in manifest order. -/
theorem mergeAll_ok_of_resolved (fs : String → StoredFile) :
    ∀ (records : List ResultRecord),
      (∀ r ∈ records, ∃ l, load_questions_from_result fs r = .ok l) →
      mergeAll fs records = .ok ((records.map (loadedRows fs)).flatten) := by
  intro records
  induction records with
  | nil => intro _; rfl
  | cons r rest ih =>
    intro h
    obtain ⟨l, hl⟩ := h r (List.mem_cons_self r rest)
    rw [mergeAll_cons, hl, ih (fun x hx => h x (List.mem_cons_of_mem r hx))]
    simp only [List.map_cons, List.flatten_cons]
    rw [loadedRows_eq_of_ok fs r l hl]

/-- Helper: under the resolution hypotheses, every collected record loads
without aborting. -/
theorem all_loads_resolve (fs : String → StoredFile) (records : List ResultRecord)
    (hS : ∀ r ∈ records, r.status = "SUCCESS" → goodSuccessRecord fs r = true)
    (hF : ∀ r ∈ records, r.status ≠ "SUCCESS" → failureOutputUnresolved fs r = true) :
    ∀ r ∈ records, ∃ l, load_questions_from_result fs r = .ok l := by
  intro r hr
  by_cases hs : r.status = "SUCCESS"
  · obtain ⟨rows, hok, _⟩ := load_ok_of_good fs r (hS r hr hs)
    exact ⟨rows, hok⟩
  · exact ⟨[], load_ok_nil_of_unresolved fs r (hF r hr hs)⟩

/-- Helper: the merged row count is the sum, over the SUCCESS records, of
the entry counts of their payloads, provided SUCCESS records are well-formed
and non-SUCCESS records resolve to no payload. -/
theorem merged_length_eq_success_sum (fs : String → StoredFile) :
    ∀ (records : List ResultRecord),
      (∀ r ∈ records, r.status = "SUCCESS" → goodSuccessRecord fs r = true) →
      (∀ r ∈ records, r.status ≠ "SUCCESS" → failureOutputUnresolved fs r = true) →
      ((records.map (loadedRows fs)).flatten).length =
        (((records.filter fun r => r.status == "SUCCESS").map
          (payloadItemCount fs)).sum) := by
  intro records
  induction records with
  | nil => intro _ _; rfl
  | cons r rest ih =>
    intro hS hF
    have ihr := ih (fun x hx => hS x (List.mem_cons_of_mem r hx))
      (fun x hx => hF x (List.mem_cons_of_mem r hx))
    simp only [List.map_cons, List.flatten_cons, List.length_append, List.filter_cons]
    by_cases hs : r.status = "SUCCESS"
    · rw [if_pos (by simp [hs])]
      simp only [List.map_cons, List.sum_cons]
      obtain ⟨rows, hok, hlen⟩ := load_ok_of_good fs r (hS r (List.mem_cons_self r rest) hs)
      rw [loadedRows_eq_of_ok fs r rows hok, hlen, ihr]
    · rw [if_neg (by simp [hs])]
      rw [loadedRows_eq_of_ok fs r []
        (load_ok_nil_of_unresolved fs r (hF r (List.mem_cons_self r rest) hs))]
      simp [ihr]

/-- Helper: flattening constant blocks in an order compatible with the
block order yields an ordered list; empty blocks may sit anywhere. -/
theorem pairwise_flatten_replicate {α : Type} (g : α → Int) (n : α → Nat) :
    ∀ (l : List α), (l.Pairwise fun x y => n x = 0 ∨ n y = 0 ∨ g x ≤ g y) →
      ((l.map fun x => List.replicate (n x) (g x)).flatten).Pairwise (· ≤ ·) := by
  intro l
  induction l with
  | nil => intro _; exact List.Pairwise.nil
  | cons x rest ih =>
    intro h
    rw [List.pairwise_cons] at h
    obtain ⟨hx, hrest⟩ := h
    simp only [List.map_cons, List.flatten_cons]
    rw [List.pairwise_append]
    refine ⟨?_, ih hrest, ?_⟩
    · rw [List.pairwise_replicate]
      exact Or.inr le_rfl
    · intro u hu v hv
      obtain ⟨hnx, hux⟩ := List.mem_replicate.mp hu
      obtain ⟨blk, hblk, hvblk⟩ := List.mem_flatten.mp hv
      obtain ⟨y, hy, hyblk⟩ := List.mem_map.mp hblk
      rw [← hyblk] at hvblk
      obtain ⟨hny, hvy⟩ := List.mem_replicate.mp hvblk
      rcases hx y hy with h0 | h0 | hle
      · exact absurd h0 hnx
      · exact absurd h0 hny
      · rw [hux, hvy]
        exact hle

/-- Helper: collection only looks at the fetch outcomes of the manifest's
task ids. -/
theorem collect_all_results_congr (f g : String → FetchOutcome) :
    ∀ (task_ids : List String), (∀ t ∈ task_ids, f t = g t) →
      collect_all_results f task_ids = collect_all_results g task_ids := by
  intro task_ids
  induction task_ids with
  | nil => intro _; rfl
  | cons t rest ih =>
    intro h
    unfold collect_all_results at ih ⊢
    simp only [List.filterMap_cons]
    rw [h t (List.mem_cons_self t rest), ih (fun x hx => h x (List.mem_cons_of_mem t hx))]

/-- C2 counterexample: the claim's 'a malformed referenced payload
contributes zero rows and never aborts' and 'a FAILURE result contributes
zero rows' both fail.  A SUCCESS record whose referenced payload file
parses to a non-object JSON value makes the aggregation raise an uncaught
`AttributeError` and abort; and since the code never consults `status`, a
FAILURE record whose `output` string happens to name an existing payload
file contributes that payload's rows (one row here instead of zero). -/
theorem claim_C2_counterexample_abort_and_failure_rows :
    aggregateRows fetchCrashCx fsCrashCx ["t1"] = .error ()
    ∧ collect_all_results fetchFailureCx ["t1"] = [⟨"FAILURE", some "g2"⟩]
    ∧ aggregateRows fetchFailureCx fsFailureCx ["t1"]
        = .ok [⟨"q", "a", "doc_page_7"⟩] := by
  refine ⟨rfl, rfl, ?_⟩
  rfl

/-- C2 (amended): when every collected record's referenced output resolves
cleanly — SUCCESS records to well-formed object payloads and non-SUCCESS
records to no parseable file (the code never consults `status`) — the
aggregation completes without aborting and the merged output's row count
(header excluded) equals the sum of entry counts across the collected
SUCCESS payloads; rows are grouped record by record in manifest order, so
the originating unit numbers ascend whenever the contributing payloads'
pages do, independent of the order in which workers produced the results
(the output depends only on the fetched values of the manifest's task
ids).  A missing or unreadable referenced file contributes zero rows
without aborting, but a referenced file parsing to a non-object value, or
a non-object `questions` entry, aborts the whole aggregation; and the CSV
adds exactly the one fixed header row. -/
theorem claim_C2_merge_row_count_order_and_robustness
    (task_ids : List String) (fetch : String → FetchOutcome) (fs : String → StoredFile)
    (hS : ∀ r ∈ collect_all_results fetch task_ids, r.status = "SUCCESS" →
      goodSuccessRecord fs r = true)
    (hF : ∀ r ∈ collect_all_results fetch task_ids, r.status ≠ "SUCCESS" →
      failureOutputUnresolved fs r = true) :
    aggregateRows fetch fs task_ids = .ok (mergeOkRows fetch fs task_ids)
    ∧ (mergeOkRows fetch fs task_ids).length =
        (((collect_all_results fetch task_ids).filter fun r => r.status == "SUCCESS").map
          (payloadItemCount fs)).sum
    ∧ ((collect_all_results fetch task_ids).Pairwise (fun a b =>
          (loadedRows fs a).length = 0 ∨ (loadedRows fs b).length = 0 ∨
          payloadPage fs a ≤ payloadPage fs b) →
        (mergedPageTrace fs (collect_all_results fetch task_ids)).Pairwise (· ≤ ·))
    ∧ (∀ r ∈ collect_all_results fetch task_ids, r.status ≠ "SUCCESS" →
        load_questions_from_result fs r = .ok [])
    ∧ (∀ r : ResultRecord, failureOutputUnresolved fs r = true →
        load_questions_from_result fs r = .ok [])
    ∧ (∀ (r : ResultRecord) (path : String), r.output = some path → path ≠ "" →
        fs path = .nonObject → load_questions_from_result fs r = .error ())
    ∧ (∀ (r : ResultRecord) (path : String) (p : Payload) (l : List ItemVal),
        r.output = some path → path ≠ "" → fs path = .content p →
        p.questions = .items l → ItemVal.nonDict ∈ l →
        load_questions_from_result fs r = .error ())
    ∧ (∀ fetch2 : String → FetchOutcome, (∀ t ∈ task_ids, fetch2 t = fetch t) →
        aggregateRows fetch2 fs task_ids = aggregateRows fetch fs task_ids)
    ∧ (∀ rows : List MergedRow,
        (generate_anki_csv rows).length = rows.length + 1) := by
  refine ⟨?_, ?_, ?_, ?_, ?_, ?_, ?_, ?_, ?_⟩
  · exact mergeAll_ok_of_resolved fs _ (all_loads_resolve fs _ hS hF)
  · exact merged_length_eq_success_sum fs _ hS hF
  · intro hP
    exact pairwise_flatten_replicate (payloadPage fs)
      (fun r => (loadedRows fs r).length) _ hP
  · intro r hr hst
    exact load_ok_nil_of_unresolved fs r (hF r hr hst)
  · intro r h
    exact load_ok_nil_of_unresolved fs r h
  · intro r path ho hp hfs
    exact load_error_of_nonObject fs r path ho hp hfs
  · intro r path p l ho hp hfs hq hm
    exact load_error_of_nonDict_item fs r path p l ho hp hfs hq hm
  · intro fetch2 h
    unfold aggregateRows
    rw [collect_all_results_congr fetch2 fetch task_ids h]
  · intro rows
    simp [generate_anki_csv]

/-- C2 witness: over a three-task manifest with one well-formed SUCCESS
payload of two items, one FAILURE whose output resolves to no file, and
one fetch failure, the aggregation completes with exactly the two SUCCESS
rows, matching the SUCCESS entry-count sum. -/
theorem claim_C2_merge_row_count_order_and_robustness_witness :
    aggregateRows fetchW fsW ["t1", "t2", "t3"]
        = .ok (mergeOkRows fetchW fsW ["t1", "t2", "t3"])
    ∧ mergeOkRows fetchW fsW ["t1", "t2", "t3"]
        = [⟨"q1", "a1", "doc_page_1"⟩, ⟨"q2", "a2", "doc_page_1"⟩]
    ∧ (mergeOkRows fetchW fsW ["t1", "t2", "t3"]).length =
        (((collect_all_results fetchW ["t1", "t2", "t3"]).filter
          fun r => r.status == "SUCCESS").map (payloadItemCount fsW)).sum :=
  ⟨(claim_C2_merge_row_count_order_and_robustness ["t1", "t2", "t3"] fetchW fsW
      (by decide) (by decide)).1,
   by decide,
   (claim_C2_merge_row_count_order_and_robustness ["t1", "t2", "t3"] fetchW fsW
      (by decide) (by decide)).2.1⟩
